import Mathlib

/-!
Verification development for the youtube-autopilot-hub repository.

The repository ships, inside `src/unnamed/part_000`, a Python CLI uploader
(constant `PYTHON_SCRIPT`) whose class `YouTubeUploader` performs OAuth
authentication (`_authenticate`), a resumable chunked video upload
(`upload_video`) and a caption upload (`upload_caption`), driven by `main`.
The TypeScript client `src/services/geminiService.ts` contains the upload
API client (`uploadVideo`) and the status-polling helper (`pollUploadStatus`).

This file gives a shallow embedding of those routines and proves or refutes
the specification claims about them.
-/

namespace YTHub

/-! ## Resumable upload loop (`YouTubeUploader.upload_video`)

The Python loop is

```
previous_progress = 0
while response is None:
    try:
        status, response = request.next_chunk()
        if status:
            current_progress = int(status.resumable_progress)
            pbar.update(current_progress - previous_progress)
            previous_progress = current_progress
    except HttpError as e:
        if e.resp.status == 403: sys.exit(1)
        elif e.resp.status in [500, 502, 503, 504]: continue
        else: raise
    except Exception: sys.exit(1)
```

`request.next_chunk()` sends the byte range starting at the library's
acknowledged offset (`resumable_progress`); on a successful intermediate
chunk it advances that offset by the chunk size (capped at the file size)
and returns a status object carrying the new offset; when the final byte is
acknowledged it instead returns the response object (status `None`); on an
HTTP failure it raises `HttpError` and leaves the acknowledged offset
unchanged, so the next call resends the same byte range.
-/

/-- Client/session state of the upload loop: the library's acknowledged
offset (`resumable_progress`), the script's `previous_progress` variable and
the cumulative total handed to `pbar.update` (an integer, since Python
subtraction is signed). -/
structure LoopState where
  acked : Nat
  previous_progress : Nat
  pbarTotal : Int
  deriving DecidableEq, Repr

/-- The state at loop entry: nothing acknowledged, `previous_progress = 0`,
progress bar at zero. -/
def initLoopState : LoopState := ⟨0, 0, 0⟩

/-- Outcome of one `next_chunk()` call, as seen by the loop: the chunk is
accepted by the remote, or the call raises `HttpError` with a status code,
or it raises some other exception. -/
inductive ChunkOutcome where
  | accepted
  | httpError (code : Nat)
  | exc
  deriving DecidableEq, Repr

/-- The byte range `[acked, min (acked+chunkSize) total)` that
`next_chunk()` sends from state `s`. -/
def requestedRange (chunkSize total : Nat) (s : LoopState) : Nat × Nat :=
  (s.acked, min (s.acked + chunkSize) total)

/-- What one iteration of the `while response is None` loop does. -/
inductive StepOut where
  | goOn (s : LoopState)
  | finished (s : LoopState)
  | exitProc (code : Nat)
  | raiseExc (code : Nat)
  deriving DecidableEq, Repr

/-- One iteration of the loop body on outcome `o`, mirroring the Python
`try/except` dispatch. -/
def uploadStep (chunkSize total : Nat) (s : LoopState) (o : ChunkOutcome) : StepOut :=
  match o with
  | .accepted =>
      let newAcked := min (s.acked + chunkSize) total
      if newAcked < total then
        .goOn { acked := newAcked
                previous_progress := newAcked
                pbarTotal := s.pbarTotal + ((newAcked : Int) - (s.previous_progress : Int)) }
      else
        .finished { s with acked := newAcked }
  | .httpError code =>
      if code = 403 then .exitProc 1
      else if code = 500 ∨ code = 502 ∨ code = 503 ∨ code = 504 then .goOn s
      else .raiseExc code
  | .exc => .exitProc 1

/-- How control leaves `upload_video`: a normal `return` to the caller
(`some id` from the `"id" in response` branch, `none` otherwise), a
re-raised `HttpError`, a `sys.exit`, or still looping when the supplied
outcome trace ran out. -/
inductive UploadOutcome where
  | returns (v : Option String)
  | raisesHttp (code : Nat)
  | exitsProcess (code : Nat)
  | pending (s : LoopState)
  deriving DecidableEq, Repr

/-- `true` exactly when control returns normally to the caller of
`upload_video`. -/
def returnsToCaller : UploadOutcome → Bool
  | .returns _ => true
  | _ => false

/-- Run the upload loop against a finite trace of per-request outcomes.
`respId` is the `"id"` field of the completion response, if present. -/
def runUpload (chunkSize total : Nat) (respId : Option String) :
    List ChunkOutcome → LoopState → UploadOutcome
  | [], s => .pending s
  | o :: rest, s =>
      match uploadStep chunkSize total s o with
      | .goOn s' => runUpload chunkSize total respId rest s'
      | .finished _ => .returns respId
      | .exitProc c => .exitsProcess c
      | .raiseExc c => .raisesHttp c

/-- The successive loop states visited while the loop keeps running,
including the state at the iteration that ends it. -/
def uploadTrace (chunkSize total : Nat) :
    List ChunkOutcome → LoopState → List LoopState
  | [], _ => []
  | o :: rest, s =>
      match uploadStep chunkSize total s o with
      | .goOn s' => s' :: uploadTrace chunkSize total rest s'
      | .finished s' => [s']
      | .exitProc _ => []
      | .raiseExc _ => []

/-- Well-formedness of a loop state: `previous_progress` never exceeds the
acknowledged offset, which never exceeds the file size. -/
def StateInv (total : Nat) (s : LoopState) : Prop :=
  s.previous_progress ≤ s.acked ∧ s.acked ≤ total

/-- The monotonicity relation claimed of the progress reporting. -/
def ProgressMono (a b : LoopState) : Prop :=
  a.previous_progress ≤ b.previous_progress ∧ a.pbarTotal ≤ b.pbarTotal

theorem uploadStep_goOn_inv {chunkSize total : Nat} {s s' : LoopState}
    {o : ChunkOutcome} (hinv : StateInv total s)
    (h : uploadStep chunkSize total s o = .goOn s') :
    StateInv total s' ∧ ProgressMono s s' := by
  obtain ⟨h1, h2⟩ := hinv
  cases o with
  | accepted =>
      simp only [uploadStep] at h
      split at h
      · cases h
        constructor
        · constructor
          · exact le_refl _
          · exact le_of_lt (by assumption)
        · constructor
          · exact le_trans h1 (le_min (Nat.le_add_right _ _) h2)
          · simp only [LoopState.pbarTotal]
            have hpm : (s.previous_progress : Int) ≤ ((min (s.acked + chunkSize) total : Nat) : Int) := by
              exact_mod_cast le_trans h1 (le_min (Nat.le_add_right _ _) h2)
            omega
      · cases h
  | httpError code =>
      simp only [uploadStep] at h
      split at h
      · cases h
      · split at h
        · cases h
          exact ⟨⟨h1, h2⟩, le_refl _, le_refl _⟩
        · cases h
  | exc =>
      simp only [uploadStep] at h
      cases h

theorem uploadStep_finished_inv {chunkSize total : Nat} {s s' : LoopState}
    {o : ChunkOutcome} (hinv : StateInv total s)
    (h : uploadStep chunkSize total s o = .finished s') :
    StateInv total s' ∧ ProgressMono s s' := by
  obtain ⟨h1, h2⟩ := hinv
  cases o with
  | accepted =>
      simp only [uploadStep] at h
      split at h
      · cases h
      · cases h
        refine ⟨⟨?_, ?_⟩, le_refl _, le_refl _⟩
        · exact le_trans h1 (le_min (Nat.le_add_right _ _) h2)
        · exact min_le_right _ _
  | httpError code =>
      simp only [uploadStep] at h
      split at h
      · cases h
      · split at h <;> cases h
  | exc =>
      simp only [uploadStep] at h
      cases h

theorem uploadTrace_chain {chunkSize total : Nat} :
    ∀ (outcomes : List ChunkOutcome) (s : LoopState), StateInv total s →
      List.Chain' ProgressMono (s :: uploadTrace chunkSize total outcomes s)
  | [], s, _ => by simp [uploadTrace]
  | o :: rest, s, hinv => by
      simp only [uploadTrace]
      cases hstep : uploadStep chunkSize total s o with
      | goOn s' =>
          obtain ⟨hinv', hmono⟩ := uploadStep_goOn_inv hinv hstep
          exact List.Chain'.cons hmono (uploadTrace_chain rest s' hinv')
      | finished s' =>
          obtain ⟨_, hmono⟩ := uploadStep_finished_inv hinv hstep
          simp [List.chain'_cons, hmono]
      | exitProc c => simp
      | raiseExc c => simp

/-- Claim C1: over a whole upload session started from the initial loop
state, `previous_progress` and the cumulative `pbar` total are monotonically
non-decreasing along every successive pair of loop states, for every trace
of chunk outcomes — including traces containing retried (transiently
failed) chunks. -/
theorem C1_upload_progress_monotone (chunkSize total : Nat)
    (outcomes : List ChunkOutcome) :
    List.Chain' ProgressMono
      (initLoopState :: uploadTrace chunkSize total outcomes initLoopState) :=
  uploadTrace_chain outcomes initLoopState ⟨Nat.le_refl 0, Nat.zero_le total⟩

/-- Claim C2: a chunk request failing with HTTP 500, 502, 503 or 504 makes
the loop `continue` with the session state completely unchanged — so the
retried request carries the identical byte range `requestedRange` and the
acknowledged byte count does not advance — and any finite run of such
failures leaves the loop still running (never terminating the upload,
never exiting and never raising). -/
theorem C2_transient_retries_same_chunk (chunkSize total : Nat)
    (respId : Option String) (s : LoopState) (code n : Nat)
    (h : code = 500 ∨ code = 502 ∨ code = 503 ∨ code = 504) :
    uploadStep chunkSize total s (.httpError code) = .goOn s ∧
    requestedRange chunkSize total s = requestedRange chunkSize total s ∧
    runUpload chunkSize total respId
      (List.replicate n (.httpError code)) s = .pending s := by
  have hstep : uploadStep chunkSize total s (.httpError code) = .goOn s := by
    rcases h with h | h | h | h <;> subst h <;> rfl
  refine ⟨hstep, rfl, ?_⟩
  induction n with
  | zero => rfl
  | succ k ih => simp [List.replicate_succ, runUpload, hstep, ih]

theorem C2_transient_retries_same_chunk_witness :
    uploadStep 1024 3000 initLoopState (.httpError 503) = .goOn initLoopState ∧
    requestedRange 1024 3000 initLoopState = requestedRange 1024 3000 initLoopState ∧
    runUpload 1024 3000 (some "vid")
      (List.replicate 5 (.httpError 503)) initLoopState = .pending initLoopState :=
  C2_transient_retries_same_chunk 1024 3000 (some "vid") initLoopState 503 5
    (by decide)

/-- Claim C3 counterexample: on a chunk failing with HTTP 403 the code runs
`sys.exit(1)` — the whole process terminates — so no classified quota error
is returned to the caller of `upload_video`. -/
theorem C3_counterexample :
    runUpload 1024 3000 (some "vid") [.httpError 403] initLoopState
      = .exitsProcess 1 ∧
    returnsToCaller
      (runUpload 1024 3000 (some "vid") [.httpError 403] initLoopState)
      = false :=
  ⟨rfl, rfl⟩

/-- Claim C3 (amended): a chunk failure with HTTP 403 aborts the upload
immediately — no further chunk outcomes are even examined — but the abort
is `sys.exit(1)`, terminating the whole process with exit code 1 rather
than returning a classified error value to the caller. -/
theorem C3_quota_exits_process (chunkSize total : Nat) (respId : Option String)
    (rest : List ChunkOutcome) (s : LoopState) :
    runUpload chunkSize total respId (.httpError 403 :: rest) s
      = .exitsProcess 1 ∧
    returnsToCaller
      (runUpload chunkSize total respId (.httpError 403 :: rest) s) = false := by
  simp [runUpload, uploadStep, returnsToCaller]

/-! ## Caption upload (`YouTubeUploader.upload_caption`) and the per-video
step of `main`

`upload_caption` wraps only the `captions().insert(...).execute()` call in
`try: ... except HttpError as e: logger.error(...)`: an `HttpError` is
caught, logged, and the method returns normally; any other exception
propagates to the caller. In `main`, after `video_id =
uploader.upload_video(video)`, the caption step runs only under
`if video_id:` and when a matching `.srt`/`.vtt` sibling file exists. -/

/-- Outcome of the caption insert request. -/
inductive CaptionOutcome where
  | ok
  | httpError (code : Nat)
  | exc
  deriving DecidableEq, Repr

/-- How `upload_caption` finishes: the insert succeeded; or an `HttpError`
was caught and logged (normal return); or a non-`HttpError` exception
escapes the method. -/
inductive CaptionResult where
  | succeeded
  | loggedError
  | raised
  deriving DecidableEq, Repr

/-- `YouTubeUploader.upload_caption`, as a function of the request
outcome. -/
def upload_caption : CaptionOutcome → CaptionResult
  | .ok => .succeeded
  | .httpError _ => .loggedError
  | .exc => .raised

/-- The observable per-video outcome of one iteration of the loop in
`main`: the id returned by `upload_video` (if it returned), whether a
caption request was made, whether it succeeded, and whether an uncaught
exception or `sys.exit` aborted the batch at this video. -/
structure JobOutcome where
  videoId : Option String
  captionAttempted : Bool
  subtitleUploaded : Bool
  crashed : Bool
  deriving DecidableEq, Repr

/-- One iteration of the `for video in video_files` loop of `main`:
`upload_video`, then — only when it returned a truthy id (`if video_id:`)
and a subtitle sibling exists — `upload_caption`. A `CaptionResult.raised`
is uncaught in `main` and aborts the batch. -/
def processVideo (upResult : UploadOutcome) (subFileExists : Bool)
    (capOutcome : CaptionOutcome) : JobOutcome :=
  match upResult with
  | .returns (some vid) =>
      if vid = "" then ⟨some vid, false, false, false⟩
      else if subFileExists then
        match upload_caption capOutcome with
        | .succeeded => ⟨some vid, true, true, false⟩
        | .loggedError => ⟨some vid, true, false, false⟩
        | .raised => ⟨some vid, true, false, true⟩
      else ⟨some vid, false, false, false⟩
  | .returns none => ⟨none, false, false, false⟩
  | .raisesHttp _ => ⟨none, false, false, true⟩
  | .exitsProcess _ => ⟨none, false, false, true⟩
  | .pending _ => ⟨none, false, false, false⟩

/-- Claim C4 counterexample: a non-`HttpError` exception during the caption
upload is not caught by `upload_caption` (whose `except` clause handles
only `HttpError`); it propagates out of the uncaught call in `main` and
aborts the batch — so not every caption-upload failure is non-fatal. -/
theorem C4_counterexample :
    upload_caption .exc = .raised ∧
    (processVideo (.returns (some "vid123")) true .exc).crashed = true :=
  ⟨rfl, rfl⟩

/-- Claim C4 (amended): a caption upload failing with an `HttpError` is
caught and logged inside `upload_caption` and is non-fatal — the video
keeps its id, the batch continues (`crashed = false`) — but only
`HttpError` is caught; any other exception propagates out of the method. -/
theorem C4_caption_httperror_nonfatal (code : Nat) (vid : String)
    (hvid : vid ≠ "") :
    upload_caption (.httpError code) = .loggedError ∧
    processVideo (.returns (some vid)) true (.httpError code) =
      ⟨some vid, true, false, false⟩ := by
  refine ⟨rfl, ?_⟩
  simp [processVideo, hvid, upload_caption]

theorem C4_caption_httperror_nonfatal_witness :
    upload_caption (.httpError 404) = .loggedError ∧
    processVideo (.returns (some "vid123")) true (.httpError 404) =
      ⟨some "vid123", true, false, false⟩ :=
  C4_caption_httperror_nonfatal 404 "vid123" (by decide)

/-- Claim C5: a caption request is attempted only when `upload_video`
returned a (truthy) video id — `captionAttempted` or `subtitleUploaded`
being true forces `videoId` to be set — and when the upload returns no id
no caption request is made at all. -/
theorem C5_caption_only_after_video_id (upResult : UploadOutcome)
    (subExists : Bool) (cap : CaptionOutcome) :
    ((processVideo upResult subExists cap).captionAttempted = true →
      (processVideo upResult subExists cap).videoId ≠ none) ∧
    ((processVideo upResult subExists cap).subtitleUploaded = true →
      (processVideo upResult subExists cap).videoId ≠ none) ∧
    (processVideo (.returns none) subExists cap).captionAttempted = false := by
  refine ⟨?_, ?_, rfl⟩ <;>
  · cases upResult with
    | returns v =>
        cases v with
        | none => simp [processVideo]
        | some vid =>
            by_cases hv : vid = "" <;>
              cases cap <;>
                cases subExists <;>
                  simp [processVideo, upload_caption, hv]
    | raisesHttp c => simp [processVideo]
    | exitsProcess c => simp [processVideo]
    | pending s => simp [processVideo]

theorem C5_caption_only_after_video_id_witness :
    (processVideo (.returns (some "abc")) true .ok).videoId ≠ none :=
  (C5_caption_only_after_video_id (.returns (some "abc")) true .ok).1 rfl

/-! ## Authentication (`YouTubeUploader._authenticate`)

The Python routine, per profile:

```
creds = None
if os.path.exists(token_file):
    creds = pickle.load(...)
if not creds or not creds.valid:
    if creds and creds.expired and creds.refresh_token:
        creds.refresh(Request())
    else:
        if not os.path.exists(CLIENT_SECRETS_FILE):
            print(...); sys.exit(1)
        flow = InstalledAppFlow.from_client_secrets_file(...)
        creds = flow.run_local_server(port=0)
    with open(token_file, "wb") as token:
        pickle.dump(creds, token)
return creds
```

A missing token file is a storage miss (`creds = None`). The `token` field
is an opaque payload letting us observe whether a credential is returned
unchanged. -/

/-- A persisted OAuth credential as `_authenticate` observes it: the
google-auth `valid` / `expired` / `refresh_token` attributes plus an opaque
payload identifying the token value. -/
structure Creds where
  valid : Bool
  expired : Bool
  hasRefreshToken : Bool
  token : Nat
  deriving DecidableEq, Repr

/-- Everything observable about one `_authenticate` call: the credential it
returns (`none` when the process exited), how many refresh calls it made,
whether it ran the interactive consent flow, whether it wrote the token
file, the exit code if it called `sys.exit`, and the token-file content
after the call. -/
structure AuthResult where
  creds : Option Creds
  refreshCount : Nat
  didInteractive : Bool
  didSave : Bool
  exited : Option Nat
  storeAfter : Option Creds
  deriving DecidableEq, Repr

/-- `YouTubeUploader._authenticate` over an explicit token store. `store`
is the token file's content (`none` = file absent), `clientSecretsExists`
tells whether `client_secrets.json` is present, `refresh` is the token
endpoint's action on a credential, and `interactive` is the credential the
interactive consent flow would yield. -/
def authenticate (store : Option Creds) (clientSecretsExists : Bool)
    (refresh : Creds → Creds) (interactive : Creds) : AuthResult :=
  match store with
  | some c =>
      if c.valid then
        ⟨some c, 0, false, false, none, store⟩
      else if c.expired && c.hasRefreshToken then
        let c' := refresh c
        ⟨some c', 1, false, true, none, some c'⟩
      else if clientSecretsExists then
        ⟨some interactive, 0, true, true, none, some interactive⟩
      else
        ⟨none, 0, false, false, some 1, store⟩
  | none =>
      if clientSecretsExists then
        ⟨some interactive, 0, true, true, none, some interactive⟩
      else
        ⟨none, 0, false, false, some 1, store⟩

/-- Claim C6: a stored credential with `valid = true` is returned
unchanged, with no refresh call, no interactive flow, no token-file write
and no exit — the store is untouched. -/
theorem C6_valid_creds_unchanged (e r : Bool) (t : Nat)
    (clientSecretsExists : Bool) (refresh : Creds → Creds)
    (interactive : Creds) :
    authenticate (some ⟨true, e, r, t⟩) clientSecretsExists refresh interactive
      = ⟨some ⟨true, e, r, t⟩, 0, false, false, none, some ⟨true, e, r, t⟩⟩ :=
  rfl

/-- Claim C7 (amended, single call): a stored credential that is invalid,
expired and carries a refresh token triggers exactly one refresh call; the
refreshed credential is both written back to the token store and
returned. -/
theorem C7_expired_refreshes_once (t : Nat)
    (clientSecretsExists : Bool) (refresh : Creds → Creds)
    (interactive : Creds) :
    authenticate (some ⟨false, true, true, t⟩) clientSecretsExists refresh
        interactive
      = ⟨some (refresh ⟨false, true, true, t⟩), 1, false, true, none,
          some (refresh ⟨false, true, true, t⟩)⟩ :=
  rfl

/-- Claim C8 counterexample: on a storage miss (no token file) with the
client secrets file present, `_authenticate` itself runs the interactive
consent flow (`flow.run_local_server`), persists the obtained credential
and returns it normally — no `InteractionRequiredError` (or any error) is
signalled to the caller. -/
theorem C8_counterexample :
    authenticate none true (fun c => ⟨true, false, c.hasRefreshToken, c.token + 1⟩)
        ⟨true, false, true, 100⟩
      = ⟨some ⟨true, false, true, 100⟩, 0, true, true, none,
          some ⟨true, false, true, 100⟩⟩ ∧
    (authenticate none true (fun c => ⟨true, false, c.hasRefreshToken, c.token + 1⟩)
        ⟨true, false, true, 100⟩).didInteractive = true :=
  ⟨rfl, rfl⟩

/-- Claim C8 (amended): on a storage miss, or on a stored credential that
is invalid and not refreshable, `_authenticate` performs the interactive
consent flow itself when `client_secrets.json` is present (persisting and
returning the new credential), and exits the process with code 1 when it
is absent; in no case does it signal an interaction-required error to its
caller. -/
theorem C8_miss_runs_interactive_flow (refresh : Creds → Creds)
    (interactive : Creds) (e r : Bool) (t : Nat) (hnr : (e && r) = false) :
    authenticate none true refresh interactive
      = ⟨some interactive, 0, true, true, none, some interactive⟩ ∧
    authenticate none false refresh interactive
      = ⟨none, 0, false, false, some 1, none⟩ ∧
    authenticate (some ⟨false, e, r, t⟩) true refresh interactive
      = ⟨some interactive, 0, true, true, none, some interactive⟩ := by
  refine ⟨rfl, rfl, ?_⟩
  simp [authenticate, hnr]

theorem C8_miss_runs_interactive_flow_witness :
    authenticate none true (fun c => c) ⟨true, false, true, 7⟩
      = ⟨some ⟨true, false, true, 7⟩, 0, true, true, none,
          some ⟨true, false, true, 7⟩⟩ ∧
    authenticate none false (fun c => c) ⟨true, false, true, 7⟩
      = ⟨none, 0, false, false, some 1, none⟩ ∧
    authenticate (some ⟨false, false, true, 3⟩) true (fun c => c)
        ⟨true, false, true, 7⟩
      = ⟨some ⟨true, false, true, 7⟩, 0, true, true, none,
          some ⟨true, false, true, 7⟩⟩ :=
  C8_miss_runs_interactive_flow (fun c => c) ⟨true, false, true, 7⟩
    false true 3 (by decide)

/-! ## Two concurrent `_authenticate` calls on one profile

The CLI keeps the token file (and takes no lock), so two concurrent calls
for the same profile interleave three atomic actions each: read the token
file, call the token endpoint, write the token file. The decision taken at
the read follows the `_authenticate` branch structure above. -/

/-- The point an interleaved `_authenticate` call has reached: about to
read the token file; about to refresh credential `c`; about to write `c`
to the token file; returned with `c`; or exited the process. -/
inductive AgentPhase where
  | toLoad
  | toRefresh (c : Creds)
  | toSave (c : Creds)
  | finishedWith (c : Creds)
  | exitedProc
  deriving DecidableEq, Repr

/-- Shared state of two interleaved `_authenticate` calls on the same
profile: the token file, each call's phase, and the total number of
refresh calls made against the token endpoint. -/
structure TwoAuthState where
  store : Option Creds
  agent1 : AgentPhase
  agent2 : AgentPhase
  refreshes : Nat
  deriving DecidableEq, Repr

/-- One atomic action of one call: returns the new phase, the new token
file content and how many refresh calls the action performed. -/
def agentStep (clientSecretsExists : Bool) (refresh : Creds → Creds)
    (interactive : Creds) (store : Option Creds) :
    AgentPhase → AgentPhase × Option Creds × Nat
  | .toLoad =>
      match store with
      | some c =>
          if c.valid then (.finishedWith c, store, 0)
          else if c.expired && c.hasRefreshToken then (.toRefresh c, store, 0)
          else if clientSecretsExists then (.toSave interactive, store, 0)
          else (.exitedProc, store, 0)
      | none =>
          if clientSecretsExists then (.toSave interactive, store, 0)
          else (.exitedProc, store, 0)
  | .toRefresh c => (.toSave (refresh c), store, 1)
  | .toSave c => (.finishedWith c, some c, 0)
  | .finishedWith c => (.finishedWith c, store, 0)
  | .exitedProc => (.exitedProc, store, 0)

/-- Advance the call selected by `which` by one atomic action. -/
def twoAuthStep (clientSecretsExists : Bool) (refresh : Creds → Creds)
    (interactive : Creds) (st : TwoAuthState) (which : Bool) : TwoAuthState :=
  if which then
    let r := agentStep clientSecretsExists refresh interactive st.store st.agent1
    ⟨r.2.1, r.1, st.agent2, st.refreshes + r.2.2⟩
  else
    let r := agentStep clientSecretsExists refresh interactive st.store st.agent2
    ⟨r.2.1, st.agent1, r.1, st.refreshes + r.2.2⟩

/-- Run an interleaving schedule of the two calls. -/
def runTwoAuth (clientSecretsExists : Bool) (refresh : Creds → Creds)
    (interactive : Creds) (sched : List Bool) (st : TwoAuthState) :
    TwoAuthState :=
  sched.foldl (twoAuthStep clientSecretsExists refresh interactive) st

/-- Claim C7 counterexample: with an expired-but-refreshable credential in
the token file, the interleaving where both calls read the file before
either writes it performs two refresh calls — the code has no per-profile
lock, so concurrent calls for the same profile do not perform at most one
refresh. -/
theorem C7_counterexample :
    (runTwoAuth true (fun c => ⟨true, false, c.hasRefreshToken, c.token + 1⟩)
        ⟨true, false, true, 100⟩ [true, false, true, true, false, false]
        ⟨some ⟨false, true, true, 0⟩, .toLoad, .toLoad, 0⟩).refreshes = 2 ∧
    ¬ (runTwoAuth true (fun c => ⟨true, false, c.hasRefreshToken, c.token + 1⟩)
        ⟨true, false, true, 100⟩ [true, false, true, true, false, false]
        ⟨some ⟨false, true, true, 0⟩, .toLoad, .toLoad, 0⟩).refreshes ≤ 1 := by
  decide

/-! ## Status polling (`pollUploadStatus` in `src/services/geminiService.ts`)

```
const poll = async () => {
  if (!active) return;
  try {
    const job = await getUploadStatus(jobId);
    onUpdate(job);
    if (job.completed || job.error) { active = false; return; }
    setTimeout(poll, intervalMs);
  } catch (error) {
    setTimeout(poll, intervalMs * 2);
  }
};
```

`job.error` has TypeScript type `string | null` and is tested for
truthiness, so `null` and the empty string both count as "no error". -/

/-- The two fields of the reported job that the polling loop examines. -/
structure PollJob where
  completed : Bool
  error : Option String
  deriving DecidableEq, Repr

/-- One response to a status request: a job payload, or a transport
error (the `catch` branch). -/
inductive PollResp where
  | ok (j : PollJob)
  | transportError
  deriving DecidableEq, Repr

/-- JavaScript truthiness of the `string | null` field `job.error`. -/
def errorTruthy : Option String → Bool
  | none => false
  | some s => !(s == "")

/-- Observable actions of the polling loop: issuing a status request,
invoking `onUpdate`, arming `setTimeout` with a delay, or stopping. -/
inductive PollEvent where
  | request
  | update (j : PollJob)
  | scheduled (delayMs : Nat)
  | stopped
  deriving DecidableEq, Repr

/-- The default `intervalMs` parameter of `pollUploadStatus`. -/
def defaultIntervalMs : Nat := 1000

/-- The event trace `pollUploadStatus` produces while consuming the given
responses in order (the trace ends when the supplied responses run out or
the loop stops). -/
def pollRun (intervalMs : Nat) : List PollResp → List PollEvent
  | [] => []
  | .ok j :: rest =>
      .request :: .update j ::
        (if j.completed || errorTruthy j.error then [.stopped]
         else .scheduled intervalMs :: pollRun intervalMs rest)
  | .transportError :: rest =>
      .request :: .scheduled (intervalMs * 2) :: pollRun intervalMs rest

/-- Claim C9 counterexample: a job reported with `completed = false` and
`error` equal to the empty string has a non-null `error`, yet the loop —
which tests `job.error` for truthiness, not for null — schedules a further
request instead of stopping. -/
theorem C9_counterexample :
    ({ completed := false, error := some "" } : PollJob).error ≠ none ∧
    pollRun defaultIntervalMs
        [.ok ⟨false, some ""⟩, .transportError]
      = [.request, .update ⟨false, some ""⟩, .scheduled defaultIntervalMs,
         .request, .scheduled (defaultIntervalMs * 2)] := by
  decide

/-- Claim C9 (amended): the loop polls at the fixed interval (default
1000 ms), schedules the next poll after twice the interval on a transport
error, and stops — issuing no further request, whatever responses would
follow — exactly when the reported job has `completed` true or a truthy
(non-null and non-empty) `error`. -/
theorem C9_poll_stop_and_backoff (i : Nat) (j : PollJob)
    (rest : List PollResp) :
    defaultIntervalMs = 1000 ∧
    ((j.completed || errorTruthy j.error) = true →
      pollRun i (.ok j :: rest) = [.request, .update j, .stopped]) ∧
    ((j.completed || errorTruthy j.error) = false →
      pollRun i (.ok j :: rest)
        = .request :: .update j :: .scheduled i :: pollRun i rest) ∧
    pollRun i (.transportError :: rest)
      = .request :: .scheduled (i * 2) :: pollRun i rest := by
  refine ⟨rfl, ?_, ?_, rfl⟩
  · intro h
    simp [pollRun, h]
  · intro h
    simp [pollRun, h]

theorem C9_poll_stop_and_backoff_witness :
    pollRun 1000 [.ok ⟨true, none⟩, .transportError]
      = [.request, .update ⟨true, none⟩, .stopped] ∧
    pollRun 1000 [.ok ⟨false, none⟩]
      = [.request, .update ⟨false, none⟩, .scheduled 1000] := by
  constructor
  · exact (C9_poll_stop_and_backoff 1000 ⟨true, none⟩ [.transportError]).2.1 rfl
  · have h := (C9_poll_stop_and_backoff 1000 ⟨false, none⟩ []).2.2.1 rfl
    simpa [pollRun] using h

/-! ## Upload request construction (`uploadVideo` in
`src/services/geminiService.ts`)

The client builds a `FormData`: always `video`; `subtitle` only under
`if (subtitle)`; `profile` as `options.profile || 'default'`; `title` only
under `if (options.title)`; then `description`, `privacy` and `language`
with `|| ''`, `|| 'private'`, `|| 'en'`. Option fields are
`string | undefined`, tested and defaulted by JavaScript truthiness. -/

/-- The optional `options` argument of `uploadVideo` (`none` = the
property is absent/undefined). -/
structure UploadOptions where
  profile : Option String
  title : Option String
  description : Option String
  privacy : Option String
  language : Option String
  deriving DecidableEq, Repr

/-- The TypeScript default `options = {}`: every property undefined. -/
def emptyUploadOptions : UploadOptions := ⟨none, none, none, none, none⟩

/-- JavaScript `v || d` on a `string | undefined` value. -/
def jsStringOr (v : Option String) (d : String) : String :=
  match v with
  | none => d
  | some s => if s = "" then d else s

/-- The `FormData` entries `uploadVideo` appends, in order. -/
def buildUploadFormData (videoName : String) (subtitle : Option String)
    (o : UploadOptions) : List (String × String) :=
  [("video", videoName)]
    ++ (match subtitle with
        | some s => [("subtitle", s)]
        | none => [])
    ++ [("profile", jsStringOr o.profile "default")]
    ++ (match o.title with
        | some t => if t = "" then [] else [("title", t)]
        | none => [])
    ++ [("description", jsStringOr o.description "")]
    ++ [("privacy", jsStringOr o.privacy "private")]
    ++ [("language", jsStringOr o.language "en")]

/-- Claim C10: the multipart body always contains `profile`, `description`,
`privacy` and `language` with their truthy-or-default values — in
particular, with options omitted entirely the body is exactly the five
defaulted fields — while `title` appears only when a title was provided
and `subtitle` appears if and only if a non-null subtitle was passed. -/
theorem C10_upload_form_defaults (videoName : String)
    (subtitle : Option String) (o : UploadOptions) :
    buildUploadFormData videoName none emptyUploadOptions
      = [("video", videoName), ("profile", "default"), ("description", ""),
         ("privacy", "private"), ("language", "en")] ∧
    ("profile", jsStringOr o.profile "default")
        ∈ buildUploadFormData videoName subtitle o ∧
    ("description", jsStringOr o.description "")
        ∈ buildUploadFormData videoName subtitle o ∧
    ("privacy", jsStringOr o.privacy "private")
        ∈ buildUploadFormData videoName subtitle o ∧
    ("language", jsStringOr o.language "en")
        ∈ buildUploadFormData videoName subtitle o ∧
    ((∃ t, ("title", t) ∈ buildUploadFormData videoName subtitle o) →
      o.title ≠ none) ∧
    ((∃ s, ("subtitle", s) ∈ buildUploadFormData videoName subtitle o) ↔
      subtitle ≠ none) := by
  obtain ⟨p, ti, d, pr, l⟩ := o
  refine ⟨rfl, ?_, ?_, ?_, ?_, ?_, ?_⟩ <;>
    cases subtitle <;>
      cases ti <;>
        simp [buildUploadFormData, jsStringOr]

theorem C10_upload_form_defaults_witness :
    (∃ s, ("subtitle", s)
        ∈ buildUploadFormData "v.mp4" (some "v.srt") emptyUploadOptions) ∧
    ("profile", "default")
        ∈ buildUploadFormData "v.mp4" (some "v.srt") emptyUploadOptions := by
  have h := C10_upload_form_defaults "v.mp4" (some "v.srt") emptyUploadOptions
  exact ⟨h.2.2.2.2.2.2.mpr (by simp), h.2.1⟩

end YTHub
